import Mathlib

/-!
Verification of the MathBattle backend (room/session engine, scoring,
answer processing, question generation) against its specification.

The JavaScript source is shallowly embedded: JS numbers that take part in
the scoring arithmetic are modelled as rationals (`ℚ`), `Math.round` as
`jsRound` (round half toward positive infinity), JS `Map` objects as
association lists with insertion-order-preserving update, throwing code as
`Except String`, and wall-clock reads (`new Date()`) as explicit
parameters.  Randomness (`Math.random` based draws) is abstracted as an
oracle parameter where a claim depends on it.
-/

namespace MathBattle

/-- JS `Math.round`: rounds half toward positive infinity
(`Math.round(292.5) = 293`, `Math.round(-166.666...) = -167`). -/
def jsRound (x : ℚ) : ℤ := Int.floor (x + 1/2)

theorem jsRound_intCast (n : ℤ) : jsRound (n : ℚ) = n := by
  unfold jsRound
  rw [Int.floor_int_add]
  norm_num

theorem jsRound_nonneg {x : ℚ} (h : 0 ≤ x) : 0 ≤ jsRound x := by
  unfold jsRound
  rw [Int.le_floor]
  push_cast
  linarith

/-- A JS primitive value as it appears in answer payloads: either a number or
a string.  JS strict equality `===` between a number and a string is always
false, which structural equality on this type reproduces. -/
inductive JSVal
  | num (n : ℤ)
  | str (s : String)
deriving DecidableEq, Repr

/-- Question difficulty.  The source keys multipliers by the strings
`easy`/`medium`/`hard`. -/
inductive Difficulty
  | easy
  | medium
  | hard
deriving DecidableEq, Repr

/-- `difficultyMultipliers` table shared by both scoring functions
(easy 0.8, medium 1.0, hard 1.3). -/
def difficultyMultiplier : Difficulty → ℚ
  | .easy => 8/10
  | .medium => 1
  | .hard => 13/10

/-- JS `Map` lookup on an insertion-ordered association list. -/
def mapGet {α : Type} : List (String × α) → String → Option α
  | [], _ => none
  | p :: m, k => if p.1 == k then some p.2 else mapGet m k

/-- JS `Map.has`. -/
def mapHas {α : Type} (m : List (String × α)) (k : String) : Bool :=
  (mapGet m k).isSome

/-- JS `Map.set`: replaces the value in place if the key exists, otherwise
appends (JS maps preserve insertion order). -/
def mapSet {α : Type} : List (String × α) → String → α → List (String × α)
  | [], k, v => [(k, v)]
  | p :: m, k, v => if p.1 == k then (k, v) :: m else p :: mapSet m k v

/-- JS `Map.delete`. -/
def mapDelete {α : Type} (m : List (String × α)) (k : String) :
    List (String × α) :=
  m.filter (fun p => !(p.1 == k))

theorem mapGet_mapSet_self {α : Type} (m : List (String × α)) (k : String)
    (v : α) : mapGet (mapSet m k v) k = some v := by
  induction m with
  | nil => simp [mapGet, mapSet]
  | cons p m ih =>
    by_cases hk : p.1 = k
    · simp [mapGet, mapSet, hk]
    · simp [mapGet, mapSet, hk, ih]

theorem mapGet_mapSet_ne {α : Type} (m : List (String × α)) (k k' : String)
    (v : α) (hne : k' ≠ k) : mapGet (mapSet m k v) k' = mapGet m k' := by
  have hkk : ¬(k = k') := fun h => hne h.symm
  induction m with
  | nil => simp [mapGet, mapSet, hkk]
  | cons p m ih =>
    by_cases hk : p.1 = k
    · simp [mapGet, mapSet, hk, hkk]
    · by_cases hk' : p.1 = k'
      · simp [mapGet, mapSet, hk, hk', hne]
      · simp [mapGet, mapSet, hk, hk', ih]

/-- Scoring formula of `GameLogic.calculateQuestionPoints`
(controllers/gameLogic.js, the one invoked from `processAnswer`):
difficulty-scaled base, speed bonus proportional to the base
(`points * 0.5 * speedRatio`), no streak component, no clamping of the
ratio.  The `responseTime` parameter appears in the JS signature but is
unused by the body. -/
def calculateQuestionPoints (timeRemaining maxTime : ℚ) (responseTime : ℤ)
    (difficulty : Difficulty) : ℤ :=
  let points : ℚ := 100 * difficultyMultiplier difficulty
  let speedBonus : ℤ := jsRound (points * (1/2) * (timeRemaining / maxTime))
  jsRound (points + speedBonus)

/-- Scoring formula of `PlayerManager.calculatePoints`
(controllers/playerManager.js): difficulty-scaled base, flat speed bonus
`round(50 * speedRatio)` added only when `timeRemaining > 0 && maxTime > 0`,
then a streak multiplier `1 + min(streak/10, 0.5)` when `streak >= 3`. -/
def calculatePoints (timeRemaining maxTime : ℚ) (streak : ℕ)
    (difficulty : Difficulty) : ℤ :=
  let points0 : ℚ := 100 * difficultyMultiplier difficulty
  let points1 : ℚ :=
    if 0 < timeRemaining ∧ 0 < maxTime then
      points0 + (jsRound (50 * (timeRemaining / maxTime)) : ℤ)
    else points0
  let points2 : ℚ :=
    if 3 ≤ streak then
      ((jsRound (points1 * (1 + min ((streak : ℚ) / 10) (1/2))) : ℤ) : ℚ)
    else points1
  jsRound points2

/-- Clamp a rational into an interval (used only by the formula written
from the spec, not by any source function). -/
def clampQ (x lo hi : ℚ) : ℚ := max lo (min x hi)

/-- Modelled from the spec (section 4.3.1): the canonical scoring formula
the specification states for live scoring — clamped speed ratio, speed
bonus proportional to the base, and a streak multiplier once the streak
reaches 3.  Written from the spec text for comparison with the source
functions; no single source function implements this exact formula. -/
def specScoringFormula (difficulty : Difficulty)
    (maxTime timeRemaining : ℚ) (streak : ℕ) : ℤ :=
  let base : ℚ := 100 * difficultyMultiplier difficulty
  let speedRatio : ℚ := clampQ (timeRemaining / maxTime) 0 1
  let speedBonus : ℤ := jsRound (base * (1/2) * speedRatio)
  let subtotal : ℚ := base + speedBonus
  let subtotal2 : ℚ :=
    if 3 ≤ streak then
      ((jsRound (subtotal * (1 + min ((streak : ℚ) / 10) (1/2))) : ℤ) : ℚ)
    else subtotal
  jsRound subtotal2

example : calculateQuestionPoints 30 30 500 .hard = 195 := by
  norm_num [calculateQuestionPoints, difficultyMultiplier, jsRound]
example : calculatePoints 30 30 0 .hard = 180 := by
  norm_num [calculatePoints, difficultyMultiplier, jsRound]
example : specScoringFormula .hard 30 30 5 = 293 := by
  norm_num [specScoringFormula, difficultyMultiplier, clampQ, jsRound]
example : calculateQuestionPoints (-100) 30 500 .medium = -67 := by
  norm_num [calculateQuestionPoints, difficultyMultiplier, jsRound]

/-- JS `String.prototype.toLowerCase` for one ASCII character (the source
only ever compares ASCII question data). -/
def charToLower (c : Char) : Char :=
  if 'A' ≤ c ∧ c ≤ 'Z' then Char.ofNat (c.toNat + 32) else c

/-- JS whitespace test used by `String.prototype.trim`. -/
def isSpaceChar (c : Char) : Bool :=
  c == ' ' || c == '\t' || c == '\n' || c == '\r'

/-- Strip leading and trailing whitespace from a character list. -/
def trimChars (l : List Char) : List Char :=
  ((l.dropWhile isSpaceChar).reverse.dropWhile isSpaceChar).reverse

/-- JS `s.toLowerCase().trim()` as used by both answer normalizers. -/
def jsLowerTrim (s : String) : String :=
  String.mk (trimChars (s.data.map charToLower))

/-- A question as produced by `QuestionBank` and consumed by `GameLogic`.
(`options`/`explanation` and per-set metadata carry no claim-relevant
behaviour beyond what is modelled and are omitted.) -/
structure Question where
  question : String
  correctAnswer : JSVal
  difficulty : Difficulty
deriving DecidableEq, Repr

/-- The normalizer inside `GameLogic.checkAnswer`: a number is returned
unchanged (NOT converted to a string), a string is lower-cased and
trimmed. -/
def normalizeAnswerGL : JSVal → JSVal
  | .num n => .num n
  | .str s => .str (jsLowerTrim s)

/-- `GameLogic.checkAnswer` (the validator used by the live
`processAnswer` path): strict equality of the two normalized values.  A
number and a string are never strictly equal in JS. -/
def checkAnswer (question : Question) (answer : JSVal) : Bool :=
  normalizeAnswerGL answer == normalizeAnswerGL question.correctAnswer

/-- The normalizer inside `QuestionBank.validateAnswer`: a number is
converted to its decimal string (`toString()`), a string is lower-cased
and trimmed. -/
def normalizeAnswerQB : JSVal → String
  | .num n => toString n
  | .str s => jsLowerTrim s

/-- `QuestionBank.validateAnswer` (not called by the live answer path):
compares the string normalizations. -/
def validateAnswer (question : Question) (answer : JSVal) : Bool :=
  normalizeAnswerQB answer == normalizeAnswerQB question.correctAnswer

/-- Session settings (`gameSession.settings`).  `questionTime` is in
seconds and enters the scoring division, hence `ℚ`. -/
structure GameSettings where
  totalQuestions : ℕ
  questionTime : ℚ
  difficultyLevel : Difficulty
deriving DecidableEq, Repr

/-- Defaults applied by `initializeGame` when a field is absent
(`gameSettings.totalQuestions || 10`, `questionTime || 30`,
`difficultyLevel || 'medium'`). -/
def defaultGameSettings : GameSettings :=
  { totalQuestions := 10, questionTime := 30, difficultyLevel := .medium }

/-- The session status strings of gameLogic.js. -/
inductive SessionStatus
  | starting
  | playing
  | showingResults
  | finished
deriving DecidableEq, Repr

/-- One recorded answer (`answerData` in `processAnswer`).  The JS
`timestamp` field (wall clock) is omitted. -/
structure AnswerData where
  playerId : String
  answer : JSVal
  isCorrect : Bool
  responseTime : ℤ
  timeRemaining : ℚ
  pointsEarned : ℤ
deriving DecidableEq, Repr

/-- Entry of the per-round result history.  The source also stores
display-only aggregate statistics and rankings for the round; no claim
depends on them and they are omitted. -/
structure RoundResult where
  questionNumber : ℕ
  playersAnswered : ℕ
deriving DecidableEq, Repr

/-- A live game session (`gameSession` object of gameLogic.js).  Players
are identified by their id; timers and wall-clock timestamps are handled
outside the state. -/
structure GameSession where
  roomCode : String
  players : List String
  settings : GameSettings
  status : SessionStatus
  currentQuestionIndex : ℕ
  currentQuestion : Option Question
  questions : List Question
  currentRoundAnswers : List (String × AnswerData)
  allAnswersReceived : Bool
  playerScores : List (String × ℤ)
  roundResults : List RoundResult
deriving DecidableEq, Repr

/-- The `GameLogic` instance state: its map of active sessions. -/
structure GameLogicState where
  gameSessions : List (String × GameSession)
deriving DecidableEq, Repr

/-- `GameLogic.initializeGame`.  The server calls it WITHOUT the third
argument, so `gameSettings` arrives as `{}` and every field falls back to
its default; this is modelled by an `Option GameSettings` that is `none`
on that call path.  `generateQuestionSet` draws one question per slot from
the question bank (the de-duplication loop keeps the last draw even when
it collides, so exactly `totalQuestions` questions are emitted); the
random draws are abstracted by the oracle `qgen`. -/
def initializeGame (gl : GameLogicState) (roomCode : String)
    (players : List String) (gameSettings : Option GameSettings)
    (qgen : ℕ → Question) : GameLogicState :=
  let settings := gameSettings.getD defaultGameSettings
  let session : GameSession :=
    { roomCode := roomCode
      players := players
      settings := settings
      status := .starting
      currentQuestionIndex := 0
      currentQuestion := none
      questions := (List.range settings.totalQuestions).map qgen
      currentRoundAnswers := []
      allAnswersReceived := false
      playerScores := players.map (fun p => (p, 0))
      roundResults := [] }
  { gameSessions := mapSet gl.gameSessions roomCode session }

/-- `GameLogic.setCurrentQuestion`: establishes the question, clears the
round answers and enters the answering phase. -/
def setCurrentQuestion (gl : GameLogicState) (roomCode : String)
    (question : Question) : Except String GameLogicState :=
  match mapGet gl.gameSessions roomCode with
  | none => .error ("Sesión de juego no encontrada para sala " ++ roomCode)
  | some s =>
    let s1 := { s with currentQuestion := some question
                       status := SessionStatus.playing
                       currentRoundAnswers := ([] : List (String × AnswerData))
                       allAnswersReceived := false }
    .ok { gameSessions := mapSet gl.gameSessions roomCode s1 }

/-- Result record returned by `processAnswer`. -/
structure ProcessResult where
  isCorrect : Bool
  pointsEarned : ℤ
  responseTime : ℤ
  allAnswersReceived : Bool
deriving DecidableEq, Repr

/-- `GameLogic.processAnswer`: validation (session exists, status
`playing`, no duplicate answer, question present) happens before any
mutation, exactly as in the source where every `throw` precedes the first
write.  The server-side response-time measurement
(`new Date() - questionStartedAt`) is abstracted as the `responseTime`
argument. -/
def processAnswer (gl : GameLogicState) (roomCode playerId : String)
    (answer : JSVal) (timeRemaining : ℚ) (responseTime : ℤ) :
    Except String (GameLogicState × ProcessResult) :=
  match mapGet gl.gameSessions roomCode with
  | none => .error ("Sesión de juego no encontrada para sala " ++ roomCode)
  | some session =>
    if session.status ≠ .playing then
      .error "El juego no está en estado de recibir respuestas"
    else if mapHas session.currentRoundAnswers playerId then
      .error "El jugador ya respondió esta pregunta"
    else
      match session.currentQuestion with
      | none => .error "No hay pregunta activa"
      | some currentQuestion =>
        let isCorrect := checkAnswer currentQuestion answer
        let points : ℤ :=
          if isCorrect then
            calculateQuestionPoints timeRemaining session.settings.questionTime
              responseTime currentQuestion.difficulty
          else 0
        let answerData : AnswerData :=
          { playerId := playerId
            answer := answer
            isCorrect := isCorrect
            responseTime := responseTime
            timeRemaining := timeRemaining
            pointsEarned := points }
        let answers1 := mapSet session.currentRoundAnswers playerId answerData
        let currentScore := (mapGet session.playerScores playerId).getD 0
        let scores1 := mapSet session.playerScores playerId (currentScore + points)
        let allReceived := decide (session.players.length ≤ answers1.length)
        let session1 :=
          { session with currentRoundAnswers := answers1
                         playerScores := scores1
                         allAnswersReceived := allReceived }
        .ok ({ gameSessions := mapSet gl.gameSessions roomCode session1 },
          { isCorrect := isCorrect
            pointsEarned := points
            responseTime := responseTime
            allAnswersReceived := allReceived })

/-- `GameLogic.getRoundResults`: appends the round record to the history
and switches the session to `showing_results`. -/
def getRoundResults (gl : GameLogicState) (roomCode : String) :
    Except String (GameLogicState × RoundResult) :=
  match mapGet gl.gameSessions roomCode with
  | none => .error ("Sesión de juego no encontrada para sala " ++ roomCode)
  | some s =>
    let rr : RoundResult :=
      { questionNumber := s.currentQuestionIndex + 1
        playersAnswered := s.currentRoundAnswers.length }
    let s1 := { s with roundResults := s.roundResults ++ [rr]
                       status := SessionStatus.showingResults }
    .ok ({ gameSessions := mapSet gl.gameSessions roomCode s1 }, rr)

/-- `GameLogic.getNextQuestion`: increments the index first; if questions
remain it installs the next one (the body of `setCurrentQuestion`, inlined
here because the session it re-looks-up is the one just stored), otherwise
marks the session finished and returns null. -/
def getNextQuestion (gl : GameLogicState) (roomCode : String) :
    GameLogicState × Option (Question × ℕ) :=
  match mapGet gl.gameSessions roomCode with
  | none => (gl, none)
  | some s =>
    let idx := s.currentQuestionIndex + 1
    if h : idx < s.questions.length then
      let q := s.questions.get ⟨idx, h⟩
      let s1 :=
        { s with currentQuestionIndex := idx
                 currentQuestion := some q
                 status := .playing
                 currentRoundAnswers := []
                 allAnswersReceived := false }
      ({ gameSessions := mapSet gl.gameSessions roomCode s1 }, some (q, idx + 1))
    else
      let s2 := { s with currentQuestionIndex := idx
                         status := SessionStatus.finished }
      ({ gameSessions := mapSet gl.gameSessions roomCode s2 }, none)

/-- Descending stable insertion by score, modelling the JS
`sort((a, b) => b.totalScore - a.totalScore)` used for rankings. -/
def insertByScoreDesc (x : String × ℤ) :
    List (String × ℤ) → List (String × ℤ)
  | [] => [x]
  | y :: ys => if y.2 < x.2 then x :: y :: ys else y :: insertByScoreDesc x ys

/-- `GameLogic.getOverallRanking` (ranking positions left implicit). -/
def getOverallRanking (s : GameSession) : List (String × ℤ) :=
  s.playerScores.foldl (fun acc x => insertByScoreDesc x acc) []

/-- Final results record (`getFinalResults` return value; display-only
statistics omitted). -/
structure FinalResults where
  totalQuestions : ℕ
  winner : Option (String × ℤ)
  roundHistoryLength : ℕ
deriving DecidableEq, Repr

/-- `GameLogic.getFinalResults`: throws when the session is unknown,
otherwise marks it finished and reports the final ranking
(`winner = finalRanking[0]`). -/
def getFinalResults (gl : GameLogicState) (roomCode : String) :
    Except String (GameLogicState × FinalResults) :=
  match mapGet gl.gameSessions roomCode with
  | none => .error ("Sesión de juego no encontrada para sala " ++ roomCode)
  | some s =>
    let ranking := getOverallRanking s
    let s1 := { s with status := SessionStatus.finished }
    .ok ({ gameSessions := mapSet gl.gameSessions roomCode s1 },
      { totalQuestions := s.questions.length
        winner := ranking.head?
        roundHistoryLength := s.roundResults.length })

/-- `GameLogic.closeGameSession`: deletes the session (timer cleanup is
outside the state model). -/
def closeGameSession (gl : GameLogicState) (roomCode : String) :
    GameLogicState × Bool :=
  if mapHas gl.gameSessions roomCode then
    ({ gameSessions := mapDelete gl.gameSessions roomCode }, true)
  else (gl, false)

/-- A player record held by `PlayerManager` (avatar, timestamps,
per-category/difficulty tallies and the response-time history carry no
claim-relevant behaviour and are omitted). -/
structure Player where
  id : String
  name : String
  isHost : Bool
  score : ℤ
  correctAnswers : ℕ
  wrongAnswers : ℕ
  streak : ℕ
  bestStreak : ℕ
  totalQuestions : ℕ
deriving DecidableEq, Repr

/-- Result record of `updatePlayerScore`. -/
structure ScoreUpdateResult where
  playerId : String
  pointsAdded : ℤ
  oldScore : ℤ
  newScore : ℤ
  isCorrect : Bool
  currentStreak : ℕ
deriving DecidableEq, Repr

/-- `PlayerManager.updatePlayerScore`.  The JS signature defaults
`isCorrect` to `true`; the server's submit-answer handler passes only two
arguments, so the default applies there.  On a correct result the streak
is extended (and best streak updated); on an incorrect one the win/loss
counters flip and the streak resets. -/
def updatePlayerScore (players : List (String × Player)) (playerId : String)
    (points : ℤ) (isCorrect : Bool := true) :
    Except String (List (String × Player) × ScoreUpdateResult) :=
  match mapGet players playerId with
  | none => .error ("Jugador " ++ playerId ++ " no encontrado")
  | some player =>
    let oldScore := player.score
    let p1 := { player with score := player.score + points
                            totalQuestions := player.totalQuestions + 1 }
    let p2 :=
      if isCorrect then
        { p1 with correctAnswers := p1.correctAnswers + 1
                  streak := p1.streak + 1
                  bestStreak := max p1.bestStreak (p1.streak + 1) }
      else
        { p1 with wrongAnswers := p1.wrongAnswers + 1
                  streak := 0 }
    .ok (mapSet players playerId p2,
      { playerId := playerId
        pointsAdded := points
        oldScore := oldScore
        newScore := p2.score
        isCorrect := isCorrect
        currentStreak := p2.streak })

/-- `PlayerManager.setAsHost` (returns the updated roster; the boolean
result of the source is irrelevant to the claims). -/
def setAsHost (players : List (String × Player)) (playerId : String) :
    List (String × Player) :=
  match mapGet players playerId with
  | none => players
  | some p => mapSet players playerId { p with isHost := true }

/-- A room held by `RoomManager` (player roster stored as ids; gameState
mirror, timestamps and maxPlayers are not claim-relevant here). -/
structure Room where
  code : String
  hostId : String
  players : List String
  settings : GameSettings
deriving DecidableEq, Repr

/-- `RoomManager.removePlayerFromRoom`: splices the player out of the
room's roster (ids are unique within a room). -/
def removePlayerFromRoom (rooms : List (String × Room)) (roomCode pid : String) :
    List (String × Room) :=
  match mapGet rooms roomCode with
  | none => rooms
  | some room =>
    if room.players.contains pid then
      mapSet rooms roomCode
        { room with players := room.players.filter (fun q => !(q == pid)) }
    else rooms

/-- `RoomManager.findRoomByPlayerId`. -/
def findRoomByPlayerId (rooms : List (String × Room)) (pid : String) :
    Option Room :=
  (rooms.find? (fun p => p.2.players.contains pid)).map (fun p => p.2)

/-- `RoomManager.closeRoom`. -/
def closeRoom (rooms : List (String × Room)) (roomCode : String) :
    List (String × Room) :=
  mapDelete rooms roomCode

/-- The in-memory state of server.js: the three managers touched by the
claims (`roomManager.rooms`, `playerManager.players`,
`gameLogic.gameSessions`). -/
structure ServerState where
  rooms : List (String × Room)
  players : List (String × Player)
  gameLogic : GameLogicState
deriving DecidableEq, Repr

/-- The `answer-result` payload emitted back to the answering player. -/
structure AnswerResultMsg where
  correct : Bool
  pointsEarned : ℤ
  totalScore : ℤ
deriving DecidableEq, Repr

/-- The synchronous part of the `submit-answer` socket handler in
server.js: look up the player, run `processAnswer`, then
`updatePlayerScore(player.id, result.pointsEarned)` — with NO `isCorrect`
argument, so the JS default `true` applies — and, when every player has
answered, run `getRoundResults` before scheduling the deferred
continuation. -/
def handleSubmitAnswer (st : ServerState) (socketId roomCode : String)
    (answer : JSVal) (timeRemaining : ℚ) (responseTime : ℤ) :
    Except String (ServerState × AnswerResultMsg) :=
  match mapGet st.players socketId with
  | none => .error "Jugador no encontrado"
  | some player =>
    match processAnswer st.gameLogic roomCode player.id answer timeRemaining
        responseTime with
    | .error e => .error e
    | .ok (gl1, result) =>
      match updatePlayerScore st.players player.id result.pointsEarned with
      | .error e => .error e
      | .ok (players1, _upd) =>
        let totalScore := ((mapGet players1 player.id).map Player.score).getD 0
        let msg : AnswerResultMsg :=
          { correct := result.isCorrect
            pointsEarned := result.pointsEarned
            totalScore := totalScore }
        if result.allAnswersReceived then
          match getRoundResults gl1 roomCode with
          | .error e => .error e
          | .ok (gl2, _rr) =>
            .ok ({ rooms := st.rooms, players := players1, gameLogic := gl2 },
              msg)
        else
          .ok ({ rooms := st.rooms, players := players1, gameLogic := gl1 },
            msg)

/-- What the deferred submit-answer continuation emits. -/
inductive ContinuationEffect
  | newQuestion (q : Question) (questionNumber : ℕ) (timeLimit : ℚ)
  | gameFinished (fr : FinalResults)
deriving DecidableEq, Repr

/-- The `setTimeout` continuation scheduled by the submit-answer handler
after a completed round: `getNextQuestion`; when a question remains it
reads `roomManager.getRoom(roomCode).settings.questionTime` (a TypeError
when the room no longer exists — modelled as an error), and when none
remains it calls `getFinalResults` (which throws when the session no
longer exists).  It performs NO re-validation before acting. -/
def submitAnswerContinuation (gl : GameLogicState)
    (rooms : List (String × Room)) (roomCode : String) :
    Except String (GameLogicState × ContinuationEffect) :=
  let next := getNextQuestion gl roomCode
  match next.2 with
  | some (q, n) =>
    match mapGet rooms roomCode with
    | none => .error "TypeError: Cannot read properties of null"
    | some room =>
      .ok (next.1, .newQuestion q n room.settings.questionTime)
  | none =>
    match getFinalResults next.1 roomCode with
    | .error e => .error e
    | .ok (gl2, fr) => .ok (gl2, .gameFinished fr)

/-- The `start-game` socket handler in server.js: host and roster checks,
then `gameLogic.initializeGame(roomCode, room.players)` — the room's
configured `settings` are NOT passed, so the session falls back to the
defaults — followed by `setCurrentQuestion` with a fresh random question
(`firstQuestion` abstracts `questionBank.getRandomQuestion()`). -/
def handleStartGame (st : ServerState) (socketId roomCode : String)
    (firstQuestion : Question) (qgen : ℕ → Question) :
    Except String ServerState :=
  match mapGet st.rooms roomCode with
  | none => .error "Sala no encontrada"
  | some room =>
    match mapGet st.players socketId with
    | none => .error "Solo el host puede iniciar el juego"
    | some player =>
      if ¬player.isHost then .error "Solo el host puede iniciar el juego"
      else if room.players.length < 2 then
        .error "Se necesitan al menos 2 jugadores para iniciar"
      else
        let gl1 := initializeGame st.gameLogic roomCode room.players none qgen
        match setCurrentQuestion gl1 roomCode firstQuestion with
        | .error e => .error e
        | .ok gl2 => .ok { st with gameLogic := gl2 }

/-- The `disconnect` socket handler in server.js: removes the player from
their room, runs host-failover on the room roster, and removes the player
record.  It never references `gameLogic`, so the game-session state —
including the roster length used by the answer barrier — is returned
untouched. -/
def handleDisconnect (st : ServerState) (socketId : String) : ServerState :=
  match mapGet st.players socketId with
  | none => st
  | some player =>
    match findRoomByPlayerId st.rooms socketId with
    | none => { st with players := mapDelete st.players socketId }
    | some room =>
      let rooms1 := removePlayerFromRoom st.rooms room.code socketId
      let rooms2 :=
        if player.isHost then
          match mapGet rooms1 room.code with
          | some room1 =>
            if 0 < room1.players.length then rooms1
            else closeRoom rooms1 room.code
          | none => rooms1
        else rooms1
      let players1 :=
        if player.isHost then
          match mapGet rooms1 room.code with
          | some room1 =>
            match room1.players.head? with
            | some newHostId => setAsHost st.players newHostId
            | none => st.players
          | none => st.players
        else st.players
      { rooms := rooms2
        players := mapDelete players1 socketId
        gameLogic := st.gameLogic }

/-- The offset bound of `QuestionBank.generateWrongAnswers`:
`Math.max(1, Math.floor(correct * 0.3))`. -/
def wrongOffsetBound (correct : ℤ) : ℤ :=
  max 1 (Int.floor ((correct : ℚ) * (3/10)))

/-- The body of the `while (wrongAnswers.length < count)` loop of
`QuestionBank.generateWrongAnswers`, with the random offsets abstracted as
the stream `ofs` (entry `i` is the draw of iteration `i`, always within
`[-wrongOffsetBound correct, wrongOffsetBound correct]` since
`randomInt(-M, M)` cannot leave that range) and an explicit fuel bound:
the source loop has none and runs forever whenever fewer than `count`
distinct candidate values exist, which this function reflects by
returning `none` for EVERY fuel value in that situation. -/
def generateWrongAnswersAux (correct : ℤ) (count : ℕ) (ofs : ℕ → ℤ) :
    ℕ → ℕ → List ℤ → List ℤ → Option (List ℤ)
  | 0, _, wrongs, _ => if count ≤ wrongs.length then some wrongs else none
  | fuel + 1, i, wrongs, used =>
    if count ≤ wrongs.length then some wrongs
    else
      let offset := ofs i
      let wrong := max 0 (correct + offset)
      if wrong ∈ used then
        generateWrongAnswersAux correct count ofs fuel (i + 1) wrongs used
      else
        generateWrongAnswersAux correct count ofs fuel (i + 1)
          (wrongs ++ [wrong]) (wrong :: used)

/-- `QuestionBank.generateWrongAnswers(correct, count)` with abstracted
randomness and fuel, starting from `used = {correct}` as in the source. -/
def generateWrongAnswers (correct : ℤ) (count : ℕ) (ofs : ℕ → ℤ)
    (fuel : ℕ) : Option (List ℤ) :=
  generateWrongAnswersAux correct count ofs fuel 0 [] [correct]

/-- The correct value produced by `QuestionBank.generateSubtraction` from
the two random draws `a` and `b` (the source swaps the operands when
`b > a`, then subtracts). -/
def generateSubtractionAnswer (a b : ℤ) : ℤ :=
  if a < b then b - a else a - b

/-- Abbreviation: the points value `processAnswer` computes for one
submission. -/
def processAnswerPoints (s : GameSession) (q : Question) (a : JSVal)
    (t : ℚ) (rt : ℤ) : ℤ :=
  if checkAnswer q a then
    calculateQuestionPoints t s.settings.questionTime rt q.difficulty
  else 0

/-- Abbreviation: the `answerData` record `processAnswer` stores. -/
def processAnswerData (s : GameSession) (q : Question) (pid : String)
    (a : JSVal) (t : ℚ) (rt : ℤ) : AnswerData :=
  { playerId := pid
    answer := a
    isCorrect := checkAnswer q a
    responseTime := rt
    timeRemaining := t
    pointsEarned := processAnswerPoints s q a t rt }

/-- Abbreviation: the session as updated by one successful
`processAnswer`. -/
def processAnswerSession (s : GameSession) (q : Question) (pid : String)
    (a : JSVal) (t : ℚ) (rt : ℤ) : GameSession :=
  { s with
    currentRoundAnswers := mapSet s.currentRoundAnswers pid
      (processAnswerData s q pid a t rt)
    playerScores := mapSet s.playerScores pid
      ((mapGet s.playerScores pid).getD 0 + processAnswerPoints s q a t rt)
    allAnswersReceived := decide (s.players.length ≤
      (mapSet s.currentRoundAnswers pid (processAnswerData s q pid a t rt)).length) }

/-- Abbreviation: the result record of one successful `processAnswer`. -/
def processAnswerResult (s : GameSession) (q : Question) (pid : String)
    (a : JSVal) (t : ℚ) (rt : ℤ) : ProcessResult :=
  { isCorrect := checkAnswer q a
    pointsEarned := processAnswerPoints s q a t rt
    responseTime := rt
    allAnswersReceived := decide (s.players.length ≤
      (mapSet s.currentRoundAnswers pid (processAnswerData s q pid a t rt)).length) }

/-- Inversion principle for a successful `processAnswer` call: recovers the
validated session, the question, and the exact shape of the updated state
and result record. -/
theorem processAnswer_ok_elim {gl gl' : GameLogicState} {rc pid : String}
    {a : JSVal} {t : ℚ} {rt : ℤ} {r : ProcessResult}
    (hok : processAnswer gl rc pid a t rt = .ok (gl', r)) :
    ∃ s q, mapGet gl.gameSessions rc = some s ∧
      s.status = SessionStatus.playing ∧
      mapHas s.currentRoundAnswers pid = false ∧
      s.currentQuestion = some q ∧
      r = processAnswerResult s q pid a t rt ∧
      gl' = { gameSessions := mapSet gl.gameSessions rc
                (processAnswerSession s q pid a t rt) } := by
  unfold processAnswer at hok
  rcases hmg : mapGet gl.gameSessions rc with _ | s
  · rw [hmg] at hok
    exact absurd hok (by simp)
  · rw [hmg] at hok
    simp only [] at hok
    by_cases hst : s.status = SessionStatus.playing
    · rw [if_neg (by simp [hst])] at hok
      by_cases hdup : mapHas s.currentRoundAnswers pid
      · rw [if_pos hdup] at hok
        exact absurd hok (by simp)
      · rw [if_neg hdup] at hok
        rcases hq : s.currentQuestion with _ | q
        · rw [hq] at hok
          exact absurd hok (by simp)
        · rw [hq] at hok
          simp only [Except.ok.injEq, Prod.mk.injEq] at hok
          refine ⟨s, q, rfl, hst, by simpa using hdup, hq, ?_, ?_⟩
          · rw [← hok.2]
            rfl
          · rw [← hok.1]
            simp [processAnswerSession, processAnswerData, processAnswerPoints, hq]
    · rw [if_pos (by simp [hst])] at hok
      exact absurd hok (by simp)

/-! ### Claim C1: points recorded by `processAnswer` -/

/-- Hard question used in the C1 scenario (one of the predefined hard
arithmetic questions, stored with a string `correctAnswer`). -/
def c1Question : Question :=
  { question := "127 x 63", correctAnswer := .str "8001", difficulty := .hard }

/-- Session mid-round for C1: question time 30 s, hard question active,
two players, nobody has answered yet. -/
def c1Session : GameSession :=
  { roomCode := "R1"
    players := ["P1", "P2"]
    settings := defaultGameSettings
    status := .playing
    currentQuestionIndex := 0
    currentQuestion := some c1Question
    questions := []
    currentRoundAnswers := []
    allAnswersReceived := false
    playerScores := [("P1", 700), ("P2", 0)]
    roundResults := [] }

/-- Player P1 for C1: on a 4-streak, so the streak after one more correct
answer is 5 — the spec example's streak. -/
def c1P1 : Player :=
  { id := "P1", name := "Ana", isHost := true, score := 700
    correctAnswers := 4, wrongAnswers := 0, streak := 4, bestStreak := 4
    totalQuestions := 4 }

/-- Player P2 for C1. -/
def c1P2 : Player :=
  { id := "P2", name := "Luis", isHost := false, score := 0
    correctAnswers := 0, wrongAnswers := 0, streak := 0, bestStreak := 0
    totalQuestions := 0 }

/-- Server state for the C1 scenario. -/
def c1State : ServerState :=
  { rooms := [("R1", { code := "R1", hostId := "P1", players := ["P1", "P2"]
                       settings := defaultGameSettings })]
    players := [("P1", c1P1), ("P2", c1P2)]
    gameLogic := { gameSessions := [("R1", c1Session)] } }

/-- The C1 scenario run: P1 answers the hard question correctly with the
full 30 s remaining of a 30 s question. -/
def c1Run : Except String (ServerState × AnswerResultMsg) :=
  handleSubmitAnswer c1State "P1" "R1" (.str "8001") 30 500

/-- Points recorded for P1's answer in the C1 scenario. -/
def c1PointsRecorded : Option ℤ :=
  match c1Run with
  | .ok (_, m) => some m.pointsEarned
  | .error _ => none

/-- P1's streak at the end of the C1 scenario handler. -/
def c1StreakAfter : Option ℕ :=
  match c1Run with
  | .ok (st, _) => (mapGet st.players "P1").map Player.streak
  | .error _ => none

/-- C1 counterexample: with difficulty `hard`, maxTime 30, timeRemaining
30 and a streak of 5 after the answer, the live path records 195 points,
while the claimed canonical formula — whose worked example the claim
quotes — yields 293.  `processAnswer` applies no streak multiplier. -/
theorem c1_streak_bonus_never_applied_counterexample :
    c1PointsRecorded = some 195 ∧ c1StreakAfter = some 5 ∧
    specScoringFormula .hard 30 30 5 = 293 ∧
    c1PointsRecorded ≠ some (specScoringFormula .hard 30 30 5) := by
  have h195 : calculateQuestionPoints 30 30 500 .hard = 195 := by
    norm_num [calculateQuestionPoints, difficultyMultiplier, jsRound]
  have hspec : specScoringFormula .hard 30 30 5 = 293 := by
    norm_num [specScoringFormula, difficultyMultiplier, clampQ, jsRound]
  have hchk : checkAnswer c1Question (.str "8001") = true := by decide
  have hdiff : c1Question.difficulty = Difficulty.hard := rfl
  have hrun : c1Run = handleSubmitAnswer c1State "P1" "R1" (.str "8001") 30 500 := rfl
  refine ⟨?_, ?_, hspec, ?_⟩ <;>
    simp [c1PointsRecorded, c1StreakAfter, hrun, hspec, handleSubmitAnswer,
      processAnswer, updatePlayerScore, getRoundResults, c1State, c1Session,
      c1P1, c1P2, hdiff, defaultGameSettings, mapGet, mapHas, mapSet,
      hchk, h195]

/-- C1 (amended): the points `processAnswer` records for a correct answer
are `round(base + round(base * 0.5 * (timeRemaining / questionTime)))`
with `base = 100 * difficultyMultiplier` — a function of difficulty and
the raw (unclamped) time ratio only, with no streak term. -/
theorem c1_recorded_points_have_no_streak_term (gl gl' : GameLogicState)
    (rc pid : String) (a : JSVal) (t : ℚ) (rt : ℤ) (r : ProcessResult)
    (s : GameSession) (q : Question)
    (hok : processAnswer gl rc pid a t rt = .ok (gl', r))
    (hs : mapGet gl.gameSessions rc = some s)
    (hq : s.currentQuestion = some q)
    (hc : r.isCorrect = true) :
    r.pointsEarned = jsRound (100 * difficultyMultiplier q.difficulty +
      (jsRound (100 * difficultyMultiplier q.difficulty * (1/2) *
        (t / s.settings.questionTime)) : ℤ)) := by
  obtain ⟨s0, q0, hs0, _, _, hq0, hr, _⟩ := processAnswer_ok_elim hok
  rw [hs] at hs0
  injection hs0 with hss
  subst hss
  rw [hq] at hq0
  injection hq0 with hqq
  subst hqq
  subst hr
  have hc' : checkAnswer q a = true := hc
  simp [processAnswerResult, processAnswerPoints, hc',
    calculateQuestionPoints]

/-- Witness for the amended C1 theorem at the spec's example input
(hard, 30/30): the hypotheses hold for the concrete C1 session and the
conclusion evaluates. -/
theorem c1_recorded_points_have_no_streak_term_witness :
    (processAnswerResult c1Session c1Question "P1" (.str "8001") 30
      500).pointsEarned =
      jsRound (100 * difficultyMultiplier c1Question.difficulty +
        (jsRound (100 * difficultyMultiplier c1Question.difficulty * (1/2) *
          ((30 : ℚ) / c1Session.settings.questionTime)) : ℤ)) :=
  c1_recorded_points_have_no_streak_term
    c1State.gameLogic
    { gameSessions := [("R1",
        processAnswerSession c1Session c1Question "P1" (.str "8001") 30 500)] }
    "R1" "P1" (.str "8001") 30 500
    (processAnswerResult c1Session c1Question "P1" (.str "8001") 30 500)
    c1Session c1Question
    (by simp [processAnswer, processAnswerSession, processAnswerResult,
        processAnswerData, processAnswerPoints, c1State, c1Session, mapGet,
        mapHas, mapSet, checkAnswer])
    (by simp [c1State, mapGet])
    rfl
    (by decide)

/-! ### Claim C4: the two scoring functions -/

/-- C4 counterexample: at difficulty `hard`, maxTime 30, timeRemaining 30,
streak 0, the session-level formula gives 195 (speed bonus scales with the
base: +65) while the roster-level formula gives 180 (flat speed bonus
capped at +50) — the two functions do not implement one formula. -/
theorem c4_two_scoring_formulas_differ_counterexample :
    calculateQuestionPoints 30 30 0 .hard = 195 ∧
    calculatePoints 30 30 0 .hard = 180 ∧
    calculateQuestionPoints 30 30 0 .hard ≠ calculatePoints 30 30 0 .hard := by
  refine ⟨?_, ?_, ?_⟩ <;>
    norm_num [calculateQuestionPoints, calculatePoints, difficultyMultiplier,
      jsRound]

/-- C4 (amended): the two functions agree exactly on `medium` difficulty
with a streak below 3 (where the flat 50-point bonus coincides with half
the 100-point base and the streak multiplier is inactive), for every
maxTime > 0 and every timeRemaining between 0 and maxTime; outside that
region they differ, as the counterexample shows. -/
theorem c4_formulas_agree_only_on_medium_low_streak (t m : ℚ) (rt : ℤ)
    (streak : ℕ) (hm : 0 < m) (ht0 : 0 ≤ t) (htm : t ≤ m)
    (hstreak : streak < 3) :
    calculatePoints t m streak .medium = calculateQuestionPoints t m rt .medium := by
  have hs3 : ¬(3 ≤ streak) := by omega
  simp only [calculatePoints, calculateQuestionPoints, difficultyMultiplier,
    hs3, if_false]
  by_cases ht : 0 < t
  · have harg : (100 : ℚ) * 2⁻¹ * (t/m) = 50 * (t/m) := by ring
    simp [ht, hm]
    rw [harg]
  · have ht0' : t = 0 := le_antisymm (not_lt.mp ht) ht0
    subst ht0'
    norm_num [jsRound]

/-- Witness for the amended C4 theorem: medium, maxTime 30, timeRemaining
15, streak 2 — both formulas give the same value. -/
theorem c4_formulas_agree_only_on_medium_low_streak_witness :
    calculatePoints 15 30 2 .medium = calculateQuestionPoints 15 30 7 .medium :=
  c4_formulas_agree_only_on_medium_low_streak 15 30 7 2 (by norm_num)
    (by norm_num) (by norm_num) (by norm_num)

/-! ### Claim C8: score monotonicity -/

/-- For a non-negative client-reported time remaining and a positive
question time, the session-level scoring function never returns negative
points. -/
theorem calculateQuestionPoints_nonneg (t m : ℚ) (rt : ℤ) (d : Difficulty)
    (ht : 0 ≤ t) (hm : 0 < m) : 0 ≤ calculateQuestionPoints t m rt d := by
  have hbase : 0 ≤ 100 * difficultyMultiplier d := by
    cases d <;> norm_num [difficultyMultiplier]
  have hsb : 0 ≤ jsRound (100 * difficultyMultiplier d * (1/2) * (t / m)) :=
    jsRound_nonneg (by
      have hratio : 0 ≤ t / m := div_nonneg ht hm.le
      have : (0 : ℚ) ≤ 100 * difficultyMultiplier d * (1/2) :=
        mul_nonneg hbase (by norm_num)
      exact mul_nonneg this hratio)
  unfold calculateQuestionPoints
  exact jsRound_nonneg (add_nonneg hbase (by exact_mod_cast hsb))

/-- Inversion principle for a successful `updatePlayerScore`: the updated
roster stores, for the target player, a record whose score is the old one
plus the delta. -/
theorem updatePlayerScore_ok_elim {players players1 : List (String × Player)}
    {pid : String} {points : ℤ} {isC : Bool} {upd : ScoreUpdateResult}
    (h : updatePlayerScore players pid points isC = .ok (players1, upd)) :
    ∃ p0 p2, mapGet players pid = some p0 ∧
      players1 = mapSet players pid p2 ∧ p2.score = p0.score + points := by
  unfold updatePlayerScore at h
  rcases hp : mapGet players pid with _ | p0
  · rw [hp] at h
    exact absurd h (by simp)
  · rw [hp] at h
    simp only [Except.ok.injEq, Prod.mk.injEq] at h
    exact ⟨p0, _, rfl, h.1.symm, by cases isC <;> rfl⟩

/-- C8 (amended): across one handled `submit-answer` event, no player's
cumulative score decreases, PROVIDED the client-supplied `timeRemaining`
is non-negative (and the session's question time positive): a correct
answer adds the non-negative `calculateQuestionPoints` value and an
incorrect one adds 0.  (A negative `timeRemaining` breaks this, as the
counterexample shows.) -/
theorem c8_score_nondecreasing_for_nonneg_time (st st' : ServerState)
    (sid rc : String) (a : JSVal) (t : ℚ) (rt : ℤ) (msg : AnswerResultMsg)
    (s : GameSession)
    (hok : handleSubmitAnswer st sid rc a t rt = .ok (st', msg))
    (ht : 0 ≤ t)
    (hs : mapGet st.gameLogic.gameSessions rc = some s)
    (hqt : 0 < s.settings.questionTime) :
    ∀ pid p p', mapGet st.players pid = some p →
      mapGet st'.players pid = some p' → p.score ≤ p'.score := by
  intro pid p p' hp hp'
  unfold handleSubmitAnswer at hok
  rcases hplayer : mapGet st.players sid with _ | player
  · rw [hplayer] at hok
    exact absurd hok (by simp)
  · rw [hplayer] at hok
    simp only [] at hok
    rcases hpa : processAnswer st.gameLogic rc player.id a t rt with e | glr
    · rw [hpa] at hok
      exact absurd hok (by simp)
    · obtain ⟨gl1, result⟩ := glr
      rw [hpa] at hok
      simp only [] at hok
      obtain ⟨s0, q0, hs0, _, _, _, hres, _⟩ := processAnswer_ok_elim hpa
      rw [hs] at hs0
      injection hs0 with hss
      subst hss
      have hpts : 0 ≤ result.pointsEarned := by
        rw [hres]
        unfold processAnswerResult processAnswerPoints
        by_cases hc : checkAnswer q0 a
        · simp only [hc, if_true]
          exact calculateQuestionPoints_nonneg t s.settings.questionTime rt
            q0.difficulty ht hqt
        · simp [hc]
      rcases hup : updatePlayerScore st.players player.id result.pointsEarned
          with e | pu
      · rw [hup] at hok
        exact absurd hok (by simp)
      · obtain ⟨players1, upd⟩ := pu
        rw [hup] at hok
        simp only [] at hok
        obtain ⟨p0, p2, hp0, hpl1, hsc⟩ := updatePlayerScore_ok_elim hup
        have hplayers' : st'.players = players1 := by
          by_cases har : result.allAnswersReceived
          · rw [if_pos (by simpa using har)] at hok
            rcases hrr : getRoundResults gl1 rc with e | g2
            · rw [hrr] at hok
              exact absurd hok (by simp)
            · obtain ⟨gl2, rr⟩ := g2
              rw [hrr] at hok
              simp only [Except.ok.injEq, Prod.mk.injEq] at hok
              rw [← hok.1]
          · rw [if_neg (by simpa using har)] at hok
            simp only [Except.ok.injEq, Prod.mk.injEq] at hok
            rw [← hok.1]
        rw [hplayers'] at hp'
        by_cases hid : pid = player.id
        · subst hid
          rw [hpl1, mapGet_mapSet_self] at hp'
          injection hp' with hp'e
          rw [hp0] at hp
          injection hp with hpe
          rw [← hp'e, hsc, ← hpe]
          linarith
        · rw [hpl1, mapGet_mapSet_ne _ _ _ _ hid] at hp'
          rw [hp] at hp'
          injection hp' with hp'e
          rw [← hp'e]

/-! C8 witness scenario: a correct medium answer with 30 s remaining. -/

/-- Medium question for the C8 scenarios. -/
def c8Question : Question :=
  { question := "24 x 15", correctAnswer := .str "360", difficulty := .medium }

/-- Session for the C8 scenarios. -/
def c8Session : GameSession :=
  { roomCode := "R8"
    players := ["P1", "P2"]
    settings := defaultGameSettings
    status := .playing
    currentQuestionIndex := 0
    currentQuestion := some c8Question
    questions := []
    currentRoundAnswers := []
    allAnswersReceived := false
    playerScores := [("P1", 700), ("P2", 0)]
    roundResults := [] }

/-- Player P1 of the C8 scenarios (700 points on the roster). -/
def c8P1 : Player :=
  { id := "P1", name := "Ana", isHost := true, score := 700
    correctAnswers := 5, wrongAnswers := 1, streak := 2, bestStreak := 4
    totalQuestions := 6 }

/-- Player P2 of the C8 scenarios. -/
def c8P2 : Player :=
  { id := "P2", name := "Luis", isHost := false, score := 0
    correctAnswers := 0, wrongAnswers := 0, streak := 0, bestStreak := 0
    totalQuestions := 0 }

/-- Server state of the C8 scenarios. -/
def c8State : ServerState :=
  { rooms := [("R8", { code := "R8", hostId := "P1", players := ["P1", "P2"]
                       settings := defaultGameSettings })]
    players := [("P1", c8P1), ("P2", c8P2)]
    gameLogic := { gameSessions := [("R8", c8Session)] } }

/-- The roster after one correct answer worth 150 points in the C8
witness run. -/
def c8P1After : Player :=
  { id := "P1", name := "Ana", isHost := true, score := 850
    correctAnswers := 6, wrongAnswers := 1, streak := 3, bestStreak := 4
    totalQuestions := 7 }

/-- The full server state after the C8 witness run. -/
def c8StateAfter : ServerState :=
  { rooms := c8State.rooms
    players := [("P1", c8P1After), ("P2", c8P2)]
    gameLogic := { gameSessions := [("R8",
      processAnswerSession c8Session c8Question "P1" (.str "360") 30 700)] } }

/-- Witness for the amended C8 theorem: in the concrete witness run
(correct medium answer, 30 s remaining) P1's score does not decrease. -/
theorem c8_score_nondecreasing_for_nonneg_time_witness :
    c8P1.score ≤ c8P1After.score := by
  have h150 : calculateQuestionPoints 30 30 700 .medium = 150 := by
    norm_num [calculateQuestionPoints, difficultyMultiplier, jsRound]
  have hchk : checkAnswer c8Question (.str "360") = true := by decide
  refine c8_score_nondecreasing_for_nonneg_time c8State c8StateAfter "P1" "R8"
    (.str "360") 30 700
    { correct := true, pointsEarned := 150, totalScore := 850 }
    c8Session ?_ (by norm_num) (by simp [c8State, mapGet]) ?_ "P1" c8P1
    c8P1After (by simp [c8State, c8P1, mapGet])
    (by simp [c8StateAfter, c8P1After, mapGet])
  · have hdiffM : c8Question.difficulty = Difficulty.medium := rfl
    simp [handleSubmitAnswer, processAnswer, updatePlayerScore, c8State,
      c8StateAfter, c8Session, c8P1, c8P2, c8P1After, hdiffM,
      defaultGameSettings, processAnswerSession, processAnswerData,
      processAnswerPoints, mapGet, mapHas, mapSet, hchk, h150]
  · simp [c8Session, defaultGameSettings]

/-- C8 counterexample: a client-supplied negative `timeRemaining` of −100
on a correct medium answer makes the live path record −67 points, and one
handled submit-answer event drops P1's roster score from 700 to 633 — a
strictly decreasing cumulative score. -/
theorem c8_negative_delta_counterexample :
    calculateQuestionPoints (-100) 30 700 .medium = -67 ∧
    (match handleSubmitAnswer c8State "P1" "R8" (.str "360") (-100) 700 with
      | .ok (st, _) => (mapGet st.players "P1").map Player.score
      | .error _ => none) = some 633 ∧ (633 : ℤ) < 700 := by
  have hneg : calculateQuestionPoints (-100) 30 700 .medium = -67 := by
    norm_num [calculateQuestionPoints, difficultyMultiplier, jsRound]
  have hchk : checkAnswer c8Question (.str "360") = true := by decide
  have hdiff : c8Question.difficulty = Difficulty.medium := rfl
  refine ⟨hneg, ?_, by norm_num⟩
  simp [handleSubmitAnswer, processAnswer, updatePlayerScore, c8State,
    c8Session, c8P1, c8P2, hdiff, defaultGameSettings, mapGet, mapHas,
    mapSet, hchk, hneg]

/-! ### Claim C9: one answer per player per round -/

/-- C9: once `processAnswer` has accepted a player's answer, a second call
for the same player in the same round is rejected with the
duplicate-answer error — thrown before any mutation, so nothing of the
session changes — and the state still stores the FIRST answer record,
unmodified. -/
theorem c9_duplicate_answer_rejected_not_overwritten (gl gl' : GameLogicState)
    (rc pid : String) (a a2 : JSVal) (t t2 : ℚ) (rt rt2 : ℤ)
    (r : ProcessResult) (s : GameSession) (q : Question)
    (hok : processAnswer gl rc pid a t rt = .ok (gl', r))
    (hs : mapGet gl.gameSessions rc = some s)
    (hq : s.currentQuestion = some q) :
    processAnswer gl' rc pid a2 t2 rt2 =
      .error "El jugador ya respondió esta pregunta" ∧
    (mapGet gl'.gameSessions rc).bind
        (fun s' => mapGet s'.currentRoundAnswers pid) =
      some (processAnswerData s q pid a t rt) := by
  obtain ⟨s0, q0, hs0, hst, hdup, hq0, hres, hgl⟩ := processAnswer_ok_elim hok
  rw [hs] at hs0
  injection hs0 with hss
  subst hss
  rw [hq] at hq0
  injection hq0 with hqq
  subst hqq
  subst hgl
  have hgetS : mapGet
      (mapSet gl.gameSessions rc (processAnswerSession s q pid a t rt)) rc =
      some (processAnswerSession s q pid a t rt) :=
    mapGet_mapSet_self _ _ _
  have hgetA : mapGet
      (processAnswerSession s q pid a t rt).currentRoundAnswers pid =
      some (processAnswerData s q pid a t rt) := by
    simpa [processAnswerSession] using
      mapGet_mapSet_self s.currentRoundAnswers pid
        (processAnswerData s q pid a t rt)
  constructor
  · unfold processAnswer
    simp only []
    rw [hgetS]
    simp [processAnswerSession, hst, mapHas, mapGet_mapSet_self]
  · simp only []
    rw [hgetS]
    simpa using hgetA

/-- C9 witness scenario: easy question, P1 answers once. -/
def c9Question : Question :=
  { question := "15 + 23", correctAnswer := .str "38", difficulty := .easy }

/-- C9 witness session. -/
def c9Session : GameSession :=
  { roomCode := "R9"
    players := ["P1", "P2"]
    settings := defaultGameSettings
    status := .playing
    currentQuestionIndex := 0
    currentQuestion := some c9Question
    questions := []
    currentRoundAnswers := []
    allAnswersReceived := false
    playerScores := [("P1", 0), ("P2", 0)]
    roundResults := [] }

/-- C9 witness game-logic state before the first answer. -/
def c9Gl : GameLogicState := { gameSessions := [("R9", c9Session)] }

/-- C9 witness game-logic state after the first answer. -/
def c9Gl' : GameLogicState :=
  { gameSessions := [("R9",
      processAnswerSession c9Session c9Question "P1" (.str "38") 20 800)] }

/-- Witness for the C9 theorem: after P1's accepted answer, P1's second
submission in the same round errors and the first record is still the one
stored. -/
theorem c9_duplicate_answer_rejected_not_overwritten_witness :
    processAnswer c9Gl' "R9" "P1" (.str "99") 5 900 =
      .error "El jugador ya respondió esta pregunta" ∧
    (mapGet c9Gl'.gameSessions "R9").bind
        (fun s' => mapGet s'.currentRoundAnswers "P1") =
      some (processAnswerData c9Session c9Question "P1" (.str "38") 20 800) :=
  c9_duplicate_answer_rejected_not_overwritten c9Gl c9Gl' "R9" "P1"
    (.str "38") (.str "99") 20 5 800 900
    (processAnswerResult c9Session c9Question "P1" (.str "38") 20 800)
    c9Session c9Question
    (by simp [processAnswer, processAnswerSession, processAnswerResult,
        processAnswerData, processAnswerPoints, c9Gl, c9Gl', c9Session,
        mapGet, mapHas, mapSet])
    (by simp [c9Gl, mapGet])
    rfl

/-! ### Claim C2: incorrect answers -/

/-- C2 scenario question. -/
def c2Question : Question :=
  { question := "8 x 7", correctAnswer := .str "56", difficulty := .easy }

/-- C2 scenario session. -/
def c2Session : GameSession :=
  { roomCode := "R2"
    players := ["P1", "P2"]
    settings := defaultGameSettings
    status := .playing
    currentQuestionIndex := 0
    currentQuestion := some c2Question
    questions := []
    currentRoundAnswers := []
    allAnswersReceived := false
    playerScores := [("P1", 0), ("P2", 0)]
    roundResults := [] }

/-- C2 scenario player P1 with a zero streak. -/
def c2P1 : Player :=
  { id := "P1", name := "Ana", isHost := true, score := 0
    correctAnswers := 0, wrongAnswers := 0, streak := 0, bestStreak := 0
    totalQuestions := 0 }

/-- C2 scenario player P2. -/
def c2P2 : Player :=
  { id := "P2", name := "Luis", isHost := false, score := 0
    correctAnswers := 0, wrongAnswers := 0, streak := 0, bestStreak := 0
    totalQuestions := 0 }

/-- C2 scenario server state. -/
def c2State : ServerState :=
  { rooms := [("R2", { code := "R2", hostId := "P1", players := ["P1", "P2"]
                       settings := defaultGameSettings })]
    players := [("P1", c2P1), ("P2", c2P2)]
    gameLogic := { gameSessions := [("R2", c2Session)] } }

/-- C2 scenario run: P1 submits the WRONG answer 54. -/
def c2Run : Except String (ServerState × AnswerResultMsg) :=
  handleSubmitAnswer c2State "P1" "R2" (.str "54") 10 1000

/-- C2: the incorrect answer does earn 0 points, but because server.js
calls `updatePlayerScore(player.id, result.pointsEarned)` without the
`isCorrect` argument (which defaults to `true`), the streak is
INCREMENTED from 0 to 1 — and `correctAnswers` is incremented too —
instead of the streak being reset to 0. -/
theorem c2_incorrect_answer_scores_zero_but_streak_increments :
    (match c2Run with
      | .ok (_, m) => some (m.correct, m.pointsEarned)
      | .error _ => none) = some (false, 0) ∧
    (match c2Run with
      | .ok (st, _) => (mapGet st.players "P1").map Player.streak
      | .error _ => none) = some 1 ∧
    (match c2Run with
      | .ok (st, _) => (mapGet st.players "P1").map Player.correctAnswers
      | .error _ => none) = some 1 := by
  decide

/-! ### Claim C3: disconnect does not re-evaluate the answer barrier -/

/-- C3 scenario question. -/
def c3Question : Question :=
  { question := "100 - 37", correctAnswer := .str "63", difficulty := .easy }

/-- C3 scenario session awaiting answers from both players. -/
def c3Session : GameSession :=
  { roomCode := "R3"
    players := ["P1", "P2"]
    settings := defaultGameSettings
    status := .playing
    currentQuestionIndex := 0
    currentQuestion := some c3Question
    questions := []
    currentRoundAnswers := []
    allAnswersReceived := false
    playerScores := [("P1", 0), ("P2", 0)]
    roundResults := [] }

/-- C3 scenario player P1 (host, stays connected). -/
def c3P1 : Player :=
  { id := "P1", name := "Ana", isHost := true, score := 0
    correctAnswers := 0, wrongAnswers := 0, streak := 0, bestStreak := 0
    totalQuestions := 0 }

/-- C3 scenario player P2 (will disconnect mid-round). -/
def c3P2 : Player :=
  { id := "P2", name := "Luis", isHost := false, score := 0
    correctAnswers := 0, wrongAnswers := 0, streak := 0, bestStreak := 0
    totalQuestions := 0 }

/-- C3 scenario server state. -/
def c3State : ServerState :=
  { rooms := [("R3", { code := "R3", hostId := "P1", players := ["P1", "P2"]
                       settings := defaultGameSettings })]
    players := [("P1", c3P1), ("P2", c3P2)]
    gameLogic := { gameSessions := [("R3", c3Session)] } }

/-- C3 scenario after P1 has answered (1 of 2 answers in). -/
def c3Mid : ServerState :=
  match handleSubmitAnswer c3State "P1" "R3" (.str "99") 10 500 with
  | .ok (st, _) => st
  | .error _ => c3State

/-- C3 scenario after P2 then disconnects. -/
def c3After : ServerState := handleDisconnect c3Mid "P2"

/-- The session as seen by the answer barrier after the disconnect. -/
def c3SessionAfter : Option GameSession :=
  mapGet c3After.gameLogic.gameSessions "R3"

/-- C3: after P1 answers and P2 disconnects, the room roster shrinks to 1
and P2's player record is gone, but the session's frozen roster still
counts 2 players while only 1 answer is recorded, and
`allAnswersReceived` remains `false` — the disconnect handler never
touches the game session, so the barrier is not re-evaluated and the
round stalls even though every remaining player has answered. -/
theorem c3_disconnect_leaves_answer_barrier_stalled :
    (match handleSubmitAnswer c3State "P1" "R3" (.str "99") 10 500 with
      | .ok _ => true
      | .error _ => false) = true ∧
    c3SessionAfter.map (fun s => s.players.length) = some 2 ∧
    c3SessionAfter.map (fun s => s.currentRoundAnswers.length) = some 1 ∧
    c3SessionAfter.map GameSession.allAnswersReceived = some false ∧
    (mapGet c3After.rooms "R3").map (fun r => r.players.length) = some 1 ∧
    mapGet c3After.players "P2" = none := by
  decide

/-! ### Claim C5: the configured 3-question game -/

/-- C5 question oracle: the bank's draw for slot `i` (the scenario needs
no particular content, only that one question is drawn per slot). -/
def c5Q (i : ℕ) : Question :=
  { question := "pregunta " ++ toString i, correctAnswer := .str "7"
    difficulty := .medium }

/-- C5 room, configured by the host with 3 questions and a 10-second
question time. -/
def c5Room : Room :=
  { code := "R5", hostId := "P1", players := ["P1", "P2"]
    settings := { totalQuestions := 3, questionTime := 10
                  difficultyLevel := .medium } }

/-- C5 host player. -/
def c5P1 : Player :=
  { id := "P1", name := "Ana", isHost := true, score := 0
    correctAnswers := 0, wrongAnswers := 0, streak := 0, bestStreak := 0
    totalQuestions := 0 }

/-- C5 second player. -/
def c5P2 : Player :=
  { id := "P2", name := "Luis", isHost := false, score := 0
    correctAnswers := 0, wrongAnswers := 0, streak := 0, bestStreak := 0
    totalQuestions := 0 }

/-- C5 server state before the host starts the game. -/
def c5State0 : ServerState :=
  { rooms := [("R5", c5Room)]
    players := [("P1", c5P1), ("P2", c5P2)]
    gameLogic := { gameSessions := [] } }

/-- C5 state right after the `start-game` handler. -/
def c5State1 : ServerState :=
  match handleStartGame c5State0 "P1" "R5" (c5Q 0) c5Q with
  | .ok st => st
  | .error _ => c5State0

/-- One full round of the C5 scenario: both players answer the current
question (their submissions both reach the server), the second submission
completes the round synchronously, and nothing else happens before the
deferred continuation fires. -/
def c5BothAnswer (st : ServerState) : ServerState :=
  let st1 :=
    match handleSubmitAnswer st "P1" "R5" (.str "7") 5 100 with
    | .ok (s, _) => s
    | .error _ => st
  match handleSubmitAnswer st1 "P2" "R5" (.str "7") 4 200 with
  | .ok (s, _) => s
  | .error _ => st1

/-- The deferred continuation of the C5 scenario, applied to a state:
returns the state it leaves behind and the effect it emits. -/
def c5Fire (st : ServerState) : ServerState × Option ContinuationEffect :=
  match submitAnswerContinuation st.gameLogic st.rooms "R5" with
  | .ok (gl, e) => ({ st with gameLogic := gl }, some e)
  | .error _ => (st, none)

/-- C5 state after round 1 is complete (both answered). -/
def c5R1 : ServerState := c5BothAnswer c5State1

/-- C5 state after the round-1 continuation issued question 2. -/
def c5R1advanced : ServerState := (c5Fire c5R1).1

/-- C5 state after round 2 is complete. -/
def c5R2 : ServerState := c5BothAnswer c5R1advanced

/-- C5 state after the round-2 continuation issued question 3. -/
def c5R2advanced : ServerState := (c5Fire c5R2).1

/-- C5 state after round 3 — the configured last round — is complete. -/
def c5R3 : ServerState := c5BothAnswer c5R2advanced

/-- What the deferred continuation emits after the 3rd completed round. -/
def c5Effect3 : Option ContinuationEffect := (c5Fire c5R3).2

/-- C5: the host configured 3 questions (`c5Room`), but because server.js
calls `initializeGame(roomCode, room.players)` WITHOUT the settings
argument, the session falls back to the default 10 questions.  After the
3rd completed round the history indeed has 3 entries, but the game does
NOT finish: the continuation issues question number 4 and the session
remains `playing` instead of reporting `game-finished`. -/
theorem c5_three_question_game_does_not_finish_after_round3 :
    c5Room.settings.totalQuestions = 3 ∧
    (mapGet c5State1.gameLogic.gameSessions "R5").map
        (fun s => s.settings.totalQuestions) = some 10 ∧
    (mapGet c5State1.gameLogic.gameSessions "R5").map
        (fun s => s.questions.length) = some 10 ∧
    (mapGet c5R3.gameLogic.gameSessions "R5").map
        (fun s => s.roundResults.length) = some 3 ∧
    (match c5Effect3 with
      | some (.newQuestion _ n _) => some n
      | _ => none) = some 4 ∧
    (mapGet (c5Fire c5R3).1.gameLogic.gameSessions "R5").map
        GameSession.status = some SessionStatus.playing := by
  decide

/-! ### Claim C6: distractor synthesis termination -/

/-- The offset bound of `generateWrongAnswers` at a correct value of 0 is
`max(1, floor(0 * 0.3)) = 1`. -/
theorem wrongOffsetBound_zero : wrongOffsetBound 0 = 1 := by
  norm_num [wrongOffsetBound]

/-- Core of the C6 refutation: with `correct = 0` every candidate
distractor is `max(0, 0 + offset) ∈ {0, 1}` with `0` always used, so once
`1` is taken no iteration can ever add a value — for any offsets within
the source's `randomInt(-1, 1)` range and ANY number of iterations the
loop cannot reach 3 distractors. -/
theorem generateWrongAnswersAux_zero_stuck (ofs : ℕ → ℤ)
    (hofs : ∀ i, -1 ≤ ofs i ∧ ofs i ≤ 1) :
    ∀ fuel i wrongs used, wrongs.length ≤ 1 → (0 : ℤ) ∈ used →
      ((1 : ℤ) ∉ used → wrongs.length = 0) →
      generateWrongAnswersAux 0 3 ofs fuel i wrongs used = none := by
  intro fuel
  induction fuel with
  | zero =>
    intro i wrongs used hlen _ _
    unfold generateWrongAnswersAux
    rw [if_neg (by omega)]
  | succ fuel ih =>
    intro i wrongs used hlen h0 h1
    unfold generateWrongAnswersAux
    rw [if_neg (by omega)]
    have hcase : ofs i = -1 ∨ ofs i = 0 ∨ ofs i = 1 := by
      have := hofs i
      omega
    have hw : max 0 (0 + ofs i) = 0 ∨ max 0 (0 + ofs i) = 1 := by
      rcases hcase with h | h | h <;> rw [h] <;> simp
    rcases hw with hw | hw
    · simp only [hw]
      rw [if_pos h0]
      exact ih (i + 1) wrongs used hlen h0 h1
    · simp only [hw]
      by_cases hone : (1 : ℤ) ∈ used
      · rw [if_pos hone]
        exact ih (i + 1) wrongs used hlen h0 h1
      · rw [if_neg hone]
        have hw0 : wrongs.length = 0 := h1 hone
        refine ih (i + 1) (wrongs ++ [1]) (1 :: used) ?_ (by simp [h0]) ?_
        · simp [hw0]
        · intro hmem
          exact absurd (by simp) hmem

/-- C6: the distractor loop does not terminate for the small correct
values the generators can produce.  `generateSubtraction` can draw equal
operands (e.g. 5 and 5) and emit the correct value 0; for correct value
0, `generateWrongAnswers(0, 3)` returns `none` for EVERY fuel bound —
i.e. the unbounded source loop runs forever and never yields 3
distractors. -/
theorem c6_distractor_synthesis_diverges_on_zero (ofs : ℕ → ℤ)
    (hofs : ∀ i, -wrongOffsetBound 0 ≤ ofs i ∧ ofs i ≤ wrongOffsetBound 0)
    (fuel : ℕ) :
    generateSubtractionAnswer 5 5 = 0 ∧
    generateWrongAnswers 0 3 ofs fuel = none := by
  constructor
  · decide
  · have hofs' : ∀ i, -1 ≤ ofs i ∧ ofs i ≤ 1 := by
      intro i
      have := hofs i
      rw [wrongOffsetBound_zero] at this
      exact this
    exact generateWrongAnswersAux_zero_stuck ofs hofs' fuel 0 [] [0]
      (by simp) (by simp) (fun _ => rfl)

/-- Witness for the C6 theorem: a concrete offset stream (always drawing
+1) and a concrete fuel bound of 50 iterations still produce no
distractor list. -/
theorem c6_distractor_synthesis_diverges_on_zero_witness :
    generateSubtractionAnswer 5 5 = 0 ∧
    generateWrongAnswers 0 3 (fun _ => 1) 50 = none :=
  c6_distractor_synthesis_diverges_on_zero (fun _ => 1)
    (fun _ => by norm_num [wrongOffsetBound]) 50

/-! ### Claim C7: the live correctness check on numeric submissions -/

/-- C7 question: an arithmetic question whose canonical answer is stored,
as everywhere in the bank, as the STRING "56". -/
def c7Question : Question :=
  { question := "8 x 7", correctAnswer := .str "56", difficulty := .easy }

/-- C7: the live validator `GameLogic.checkAnswer` leaves a numeric
submission unconverted, and JS strict equality between the number 56 and
the stored string "56" is false — so the numeric submission is judged
INCORRECT, while `QuestionBank.validateAnswer` (which stringifies numbers
and is not used by the live path) accepts it, as the claim describes. -/
theorem c7_numeric_submission_rejected_by_live_check :
    checkAnswer c7Question (.num 56) = false ∧
    validateAnswer c7Question (.num 56) = true ∧
    checkAnswer c7Question (.str "56") = true := by
  decide

/-! ### Claim C10: stale deferred continuations -/

/-- C10: the deferred round-advancement continuation does NOT re-validate
its session: fired for a room code whose session no longer exists (e.g.
closed via `closeGameSession` during the 5-second delay),
`getNextQuestion` returns null, so the callback calls `getFinalResults`,
which throws the session-not-found error — an exception, not a safe
no-op. -/
theorem c10_stale_continuation_throws (gl : GameLogicState)
    (rooms : List (String × Room)) (rc : String)
    (hnone : mapGet gl.gameSessions rc = none) :
    submitAnswerContinuation gl rooms rc =
      .error ("Sesión de juego no encontrada para sala " ++ rc) := by
  unfold submitAnswerContinuation getNextQuestion getFinalResults
  rw [hnone]
  simp [hnone]

/-- Witness for the C10 theorem: a concrete state in which the session
for room ABC123 has just been closed. -/
theorem c10_stale_continuation_throws_witness :
    submitAnswerContinuation
        (closeGameSession { gameSessions := [("ABC123", c9Session)] }
          "ABC123").1 [] "ABC123" =
      .error ("Sesión de juego no encontrada para sala " ++ "ABC123") :=
  c10_stale_continuation_throws
    (closeGameSession { gameSessions := [("ABC123", c9Session)] } "ABC123").1
    [] "ABC123" (by decide)

end MathBattle
